import Mathlib

/-!
Shallow embedding of the command-dispatch / status-polling controller in
`HomeView` (`handleSendCommand`, `pollRobotStatus`, `startPolling`,
`stopPolling`, `robotState`, `logMessages`, `isLoading`, `pollingInterval`).

Network effects are modelled by passing the outcome of each `fetch` as an
explicit parameter; wall-clock timestamps are passed as an explicit `time`
string. Browser timers are modelled by a pool of live timer identifiers
(`activeTimers`) next to the stored handle (`pollingInterval`): `setInterval`
allocates a fresh identifier, `clearInterval` removes one from the pool.
-/

set_option autoImplicit false

namespace RobotCtrl

/-- The `gv0_value` field has TypeScript type `number | string | null`. -/
inductive GVValue where
  | num (v : Int)
  | str (v : String)
  | null
deriving DecidableEq, Repr

/-- The `RobotStatusData` interface. -/
structure RobotStatusData where
  mode : String
  run_status : String
  alarm_status : String
  alarm_code : Option Int := none
  gv0_value : GVValue
deriving DecidableEq, Repr

/-- The `robotState` ref: `{connected, isLoading, errorMessage, data}`. -/
structure RobotState where
  connected : Bool
  isLoading : Bool
  errorMessage : Option String
  data : RobotStatusData
deriving DecidableEq, Repr

/-- One toast notification (title and optional description). -/
structure Toast where
  title : String
  description : Option String
deriving DecidableEq, Repr

/-- The whole mutable state of the controller component, together with the
model of the browser timer runtime (`activeTimers`, `nextTimerId`) and the
toast store. -/
structure Sys where
  robotState : RobotState
  logMessages : List String
  isLoading : Bool
  pollingInterval : Option Nat
  activeTimers : List Nat
  nextTimerId : Nat
  toasts : List Toast
deriving DecidableEq, Repr

/-- The component state right after `setup` runs (before `onMounted`). -/
def initSys : Sys :=
  { robotState :=
      { connected := false
        isLoading := true
        errorMessage := none
        data :=
          { mode := "连接中..."
            run_status := "连接中..."
            alarm_status := "连接中..."
            alarm_code := none
            gv0_value := .str "N/A" } }
    logMessages := []
    isLoading := false
    pollingInterval := none
    activeTimers := []
    nextTimerId := 1
    toasts := [] }

/-- JavaScript `String.prototype.trim`: strip leading and trailing
whitespace. -/
def jsTrim (s : String) : String :=
  String.mk (((s.data.dropWhile Char.isWhitespace).reverse.dropWhile Char.isWhitespace).reverse)

/-- JavaScript `x || d` on an optional string: `undefined` and `""` are falsy. -/
def jsOr (o : Option String) (d : String) : String :=
  match o with
  | none => d
  | some m => if m = "" then d else m

/-- Log entry text built by `addLog`: `[<time>] <message>`. -/
def mkLogEntry (time msg : String) : String :=
  "[" ++ time ++ "] " ++ msg

/-- `addLog`: unshift a timestamped entry onto `logMessages`. -/
def addLog (time msg : String) (s : Sys) : Sys :=
  { s with logMessages := mkLogEntry time msg :: s.logMessages }

/-- Push one toast notification. -/
def pushToast (t : Toast) (s : Sys) : Sys :=
  { s with toasts := t :: s.toasts }

/-- `clearInterval(id)`: the runtime stops firing the timer with that id. -/
def clearIntervalS (id : Nat) (s : Sys) : Sys :=
  { s with activeTimers := s.activeTimers.filter (fun x => x != id) }

/-- `setInterval(...)`: the runtime starts a fresh timer and returns its id.
Browser timer ids are positive, so `nextTimerId` starts at 1 in `initSys`. -/
def setIntervalS (s : Sys) : Nat × Sys :=
  (s.nextTimerId,
   { s with
      activeTimers := s.activeTimers ++ [s.nextTimerId]
      nextTimerId := s.nextTimerId + 1 })

/-- `stopPolling`: if a handle is stored, clear that timer and drop the handle. -/
def stopPolling (s : Sys) : Sys :=
  match s.pollingInterval with
  | none => s
  | some id => { clearIntervalS id s with pollingInterval := none }

/-- Text logged by `startPolling` for the chosen interval. -/
def startLogMsg (interval : Nat) : String :=
  "状态轮询已启动，间隔: " ++ toString interval ++ "ms"

/-- `startPolling(interval)`: stop any current session, log the interval,
then store the handle of a freshly created timer. -/
def startPolling (interval : Nat) (time : String) (s : Sys) : Sys :=
  let s := stopPolling s
  let s := addLog time (startLogMsg interval) s
  let p := setIntervalS s
  { p.2 with pollingInterval := some p.1 }

/-- The failure placeholder written to `robotState.data` on every error path. -/
def failureData : RobotStatusData :=
  { mode := "失败"
    run_status := "失败"
    alarm_status := "失败"
    alarm_code := none
    gv0_value := .str "N/A" }

/-- Body of the status-query response. -/
structure StatusBody where
  status : String
  robot_status : Option RobotStatusData := none
  message : Option String := none
deriving DecidableEq, Repr

/-- Outcome of one `fetch('/api/status')`: the network threw (or the body
was not JSON), or the response arrived with `response.ok` false, or with
`response.ok` true. -/
inductive PollOutcome where
  | netErr (msg : String)
  | httpErr (code : Nat) (body : StatusBody)
  | ok (body : StatusBody)
deriving DecidableEq, Repr

/-- Placeholder for the engine TypeError message raised by
`data.robot_status.run_status` when `robot_status` is absent; its exact
wording is engine-dependent and no property depends on it. -/
def undefinedReadMsg : String :=
  "TypeError: Cannot read properties of undefined"

/-- First half of `pollRobotStatus`, up to the `fetch`: on the initial load
(`robotState.isLoading`), raise the `isLoading` ref. -/
def pollTickBegin (s : Sys) : Sys :=
  if s.robotState.isLoading then { s with isLoading := true } else s

/-- The `finally` block of `pollRobotStatus`. -/
def pollFinally (s : Sys) : Sys :=
  { s with
     robotState := { s.robotState with isLoading := false }
     isLoading := false }

/-- The success update `connected := true; errorMessage := null; data := d`. -/
def setRobotConnected (d : RobotStatusData) (s : Sys) : Sys :=
  { s with
     robotState :=
       { s.robotState with connected := true, errorMessage := none, data := d } }

/-- The `catch` block of `pollRobotStatus`, given the thrown message. -/
def pollCatch (emsg : String) (time : String) (s : Sys) : Sys :=
  let s := addLog time ("状态轮询请求失败: " ++ emsg) s
  let s :=
    { s with
       robotState :=
         { s.robotState with
            connected := false
            errorMessage := some (if emsg = "" then "无法连接到后端服务。" else emsg)
            data := failureData } }
  stopPolling s

/-- Second half of `pollRobotStatus`: everything after the `fetch` resolves,
including the `catch` and `finally` blocks. A 2xx body whose `status` is
`"success"` but carries no `robot_status` reaches the dereference
`data.robot_status.run_status` and throws, landing in `catch`. -/
def pollTickResolve (o : PollOutcome) (time : String) (s : Sys) : Sys :=
  pollFinally <|
    match o with
    | .netErr msg => pollCatch msg time s
    | .httpErr code body =>
        pollCatch (jsOr body.message ("服务器响应错误 (HTTP " ++ toString code ++ ")")) time s
    | .ok body =>
        if body.status = "success" then
          match body.robot_status with
          | some rs =>
              let s := setRobotConnected rs s
              if rs.run_status = "停止" ∧ rs.alarm_code = some 0 then
                addLog time "机器人运动完成，状态轮询已自动停止。" (stopPolling s)
              else s
          | none => pollCatch undefinedReadMsg time s
        else
          pollCatch (jsOr body.message "获取状态失败") time s

/-- One whole `pollRobotStatus` call. -/
def pollRobotStatus (o : PollOutcome) (time : String) (s : Sys) : Sys :=
  pollTickResolve o time (pollTickBegin s)

/-- Status ticks fire only while the runtime holds a live timer. -/
def pollEnabled (s : Sys) : Prop :=
  s.activeTimers ≠ []

/-- One entry of `detailed_results`. -/
structure DetailedResult where
  command : String
  status : String
  message : String
deriving DecidableEq, Repr

/-- Body of the command-submission response. An absent `motion_started`
is falsy, so it is modelled as `false`. -/
structure CmdBody where
  status : String
  message : Option String := none
  motion_started : Bool := false
  robot_status : Option RobotStatusData := none
  detailed_results : Option (List DetailedResult) := none
deriving DecidableEq, Repr

/-- Outcome of one `fetch('/api/command')`. -/
inductive CmdOutcome where
  | netErr (msg : String)
  | httpErr (body : CmdBody)
  | ok (body : CmdBody)
deriving DecidableEq, Repr

/-- The batch summary logged before submitting a command. -/
def batchLogMsg (command : String) : String :=
  "发送指令批次:\n\"" ++
    String.intercalate "\n" ((command.splitOn "\n").map (fun c => "- " ++ jsTrim c)) ++ "\""

/-- Log text for one `detailed_results` entry. -/
def resultLogMsg (r : DetailedResult) : String :=
  "> \"" ++ r.command ++ "\": " ++ r.message ++ " (" ++ r.status ++ ")"

/-- The `detailed_results?.forEach(...)` loop: one `addLog` per entry, in order. -/
def logResults (time : String) (rs : List DetailedResult) (s : Sys) : Sys :=
  rs.foldl (fun acc r => addLog time (resultLogMsg r) acc) s

/-- The `catch` block of `handleSendCommand`, given the thrown message. -/
def dispatchCatch (emsg : String) (time : String) (s : Sys) : Sys :=
  let m := if emsg = "" then "网络或服务器连接失败" else emsg
  let s := addLog time ("错误: " ++ m) s
  let s := pushToast { title := "请求失败", description := some m } s
  { s with
     robotState :=
       { s.robotState with
          connected := false
          errorMessage := some m
          data := failureData } }

/-- `handleSendCommand(command)`, with the fetch outcome passed explicitly. -/
def handleSendCommand (command : String) (o : CmdOutcome) (time : String) (s : Sys) : Sys :=
  if jsTrim command = "" then
    pushToast { title := "错误", description := some "指令不能为空！" } s
  else
    let s := { s with isLoading := true }
    let s := addLog time (batchLogMsg command) s
    let s := stopPolling s
    let s :=
      match o with
      | .netErr msg => dispatchCatch msg time s
      | .httpErr body => dispatchCatch (jsOr body.message "未知服务器错误") time s
      | .ok body =>
          let s :=
            match body.detailed_results with
            | none => s
            | some rs => logResults time rs s
          let s :=
            match body.robot_status with
            | none => s
            | some d => setRobotConnected d s
          if body.status = "success" ∧ body.motion_started then
            startPolling 1000 time
              (pushToast { title := "成功", description := some "运动已启动，开始轮询状态。" } s)
          else if body.status = "error" then
            pushToast { title := "指令错误", description := body.message } s
          else
            pushToast { title := "操作完成", description := some "指令已执行，但未启动运动。" } s
    { s with isLoading := false }

/-- The `onMounted` hook before its `pollRobotStatus()` call: welcome log and
`robotState.isLoading := true`. -/
def onMountedStep (time : String) (s : Sys) : Sys :=
  let s := addLog time "欢迎使用机器人控制系统。" s
  { s with robotState := { s.robotState with isLoading := true } }

/-- A poll tick that does not succeed: the network threw, `response.ok` was
false, the body's `status` was not `"success"`, or the expected
`robot_status` snapshot was missing from a success body. -/
def isPollFailure : PollOutcome → Bool
  | .netErr _ => true
  | .httpErr _ _ => true
  | .ok b => b.status != "success" || b.robot_status == none

/-- The message of the exception thrown on each poll failure path. -/
def pollFailRaw : PollOutcome → String
  | .netErr m => m
  | .httpErr c b => jsOr b.message ("服务器响应错误 (HTTP " ++ toString c ++ ")")
  | .ok b => if b.status = "success" then undefinedReadMsg else jsOr b.message "获取状态失败"

/-- The value stored in `errorMessage` by the poll `catch` block. -/
def pollFailMsg (o : PollOutcome) : String :=
  if pollFailRaw o = "" then "无法连接到后端服务。" else pollFailRaw o

/-- A dispatch whose `fetch` threw (network error or malformed payload) or
whose HTTP result was non-2xx. -/
def isDispatchFailure : CmdOutcome → Bool
  | .netErr _ => true
  | .httpErr _ => true
  | .ok _ => false

/-- The message of the exception thrown on each dispatch failure path. -/
def dispatchFailRaw : CmdOutcome → String
  | .netErr m => m
  | .httpErr b => jsOr b.message "未知服务器错误"
  | .ok _ => ""

/-- The value stored in `errorMessage` by the dispatch `catch` block. -/
def dispatchFailMsg (o : CmdOutcome) : String :=
  if dispatchFailRaw o = "" then "网络或服务器连接失败" else dispatchFailRaw o

/-- Timestamped log entry for one `detailed_results` entry. -/
def resultLogEntry (time : String) (r : DetailedResult) : String :=
  mkLogEntry time (resultLogMsg r)

/-- `connected=true ⇒ errorMessage=null`, the ConnectionState invariant. -/
def ConnInv (s : Sys) : Prop :=
  s.robotState.connected = true → s.robotState.errorMessage = none

/-- Timer-runtime invariant: the live timers are exactly the stored handle,
and every live id was allocated below the allocation counter. -/
def SessInv (s : Sys) : Prop :=
  s.activeTimers = s.pollingInterval.toList ∧
    ∀ id ∈ s.activeTimers, id < s.nextTimerId

/-- A state with one live polling session (timer id 1). -/
def sysWithTimer : Sys :=
  { initSys with pollingInterval := some 1, activeTimers := [1], nextTimerId := 2 }

/-- A quiescent state: the initial load has resolved, no attempt in flight. -/
def sysIdle : Sys :=
  { initSys with robotState := { initSys.robotState with isLoading := false } }

/-- A snapshot whose `run_status` is the backend literal `停止` with no alarm. -/
def snapStopped : RobotStatusData :=
  { mode := "自动", run_status := "停止", alarm_status := "正常",
    alarm_code := some 0, gv0_value := .num 0 }

/-- A snapshot carrying the English word `stopped` instead of the backend
literal `停止`. -/
def snapStoppedEn : RobotStatusData :=
  { mode := "自动", run_status := "stopped", alarm_status := "正常",
    alarm_code := some 0, gv0_value := .num 0 }

/-- A running snapshot. -/
def snapRunning : RobotStatusData :=
  { mode := "自动", run_status := "运行中", alarm_status := "正常",
    alarm_code := some 0, gv0_value := .num 0 }

/-- One atomic event of the controller, as scheduled by the single-threaded
runtime: the mount hook, a dispatch, the two halves of a poll tick, or a
direct start/stop. -/
inductive Step : Sys → Sys → Prop where
  | mounted (s : Sys) (time : String) : Step s (onMountedStep time s)
  | dispatch (s : Sys) (cmd : String) (o : CmdOutcome) (time : String) :
      Step s (handleSendCommand cmd o time s)
  | tickBegin (s : Sys) : Step s (pollTickBegin s)
  | tickResolve (s : Sys) (o : PollOutcome) (time : String) :
      Step s (pollTickResolve o time s)
  | start (s : Sys) (i : Nat) (time : String) : Step s (startPolling i time s)
  | stop (s : Sys) : Step s (stopPolling s)

@[simp] theorem addLog_robotState (t m : String) (s : Sys) :
    (addLog t m s).robotState = s.robotState := rfl

@[simp] theorem addLog_logMessages (t m : String) (s : Sys) :
    (addLog t m s).logMessages = mkLogEntry t m :: s.logMessages := rfl

@[simp] theorem addLog_isLoading (t m : String) (s : Sys) :
    (addLog t m s).isLoading = s.isLoading := rfl

@[simp] theorem addLog_pollingInterval (t m : String) (s : Sys) :
    (addLog t m s).pollingInterval = s.pollingInterval := rfl

@[simp] theorem addLog_activeTimers (t m : String) (s : Sys) :
    (addLog t m s).activeTimers = s.activeTimers := rfl

@[simp] theorem addLog_nextTimerId (t m : String) (s : Sys) :
    (addLog t m s).nextTimerId = s.nextTimerId := rfl

@[simp] theorem addLog_toasts (t m : String) (s : Sys) :
    (addLog t m s).toasts = s.toasts := rfl

@[simp] theorem pushToast_robotState (t : Toast) (s : Sys) :
    (pushToast t s).robotState = s.robotState := rfl

@[simp] theorem pushToast_logMessages (t : Toast) (s : Sys) :
    (pushToast t s).logMessages = s.logMessages := rfl

@[simp] theorem pushToast_isLoading (t : Toast) (s : Sys) :
    (pushToast t s).isLoading = s.isLoading := rfl

@[simp] theorem pushToast_pollingInterval (t : Toast) (s : Sys) :
    (pushToast t s).pollingInterval = s.pollingInterval := rfl

@[simp] theorem pushToast_activeTimers (t : Toast) (s : Sys) :
    (pushToast t s).activeTimers = s.activeTimers := rfl

@[simp] theorem pushToast_nextTimerId (t : Toast) (s : Sys) :
    (pushToast t s).nextTimerId = s.nextTimerId := rfl

@[simp] theorem pushToast_toasts (t : Toast) (s : Sys) :
    (pushToast t s).toasts = t :: s.toasts := rfl

@[simp] theorem setRobotConnected_robotState (d : RobotStatusData) (s : Sys) :
    (setRobotConnected d s).robotState =
      { s.robotState with connected := true, errorMessage := none, data := d } := rfl

@[simp] theorem setRobotConnected_logMessages (d : RobotStatusData) (s : Sys) :
    (setRobotConnected d s).logMessages = s.logMessages := rfl

@[simp] theorem setRobotConnected_isLoading (d : RobotStatusData) (s : Sys) :
    (setRobotConnected d s).isLoading = s.isLoading := rfl

@[simp] theorem setRobotConnected_pollingInterval (d : RobotStatusData) (s : Sys) :
    (setRobotConnected d s).pollingInterval = s.pollingInterval := rfl

@[simp] theorem setRobotConnected_activeTimers (d : RobotStatusData) (s : Sys) :
    (setRobotConnected d s).activeTimers = s.activeTimers := rfl

@[simp] theorem setRobotConnected_nextTimerId (d : RobotStatusData) (s : Sys) :
    (setRobotConnected d s).nextTimerId = s.nextTimerId := rfl

@[simp] theorem setRobotConnected_toasts (d : RobotStatusData) (s : Sys) :
    (setRobotConnected d s).toasts = s.toasts := rfl

@[simp] theorem stopPolling_robotState (s : Sys) :
    (stopPolling s).robotState = s.robotState := by
  unfold stopPolling
  cases s.pollingInterval <;> rfl

@[simp] theorem stopPolling_logMessages (s : Sys) :
    (stopPolling s).logMessages = s.logMessages := by
  unfold stopPolling
  cases s.pollingInterval <;> rfl

@[simp] theorem stopPolling_isLoading (s : Sys) :
    (stopPolling s).isLoading = s.isLoading := by
  unfold stopPolling
  cases s.pollingInterval <;> rfl

@[simp] theorem stopPolling_nextTimerId (s : Sys) :
    (stopPolling s).nextTimerId = s.nextTimerId := by
  unfold stopPolling
  cases s.pollingInterval <;> rfl

@[simp] theorem stopPolling_toasts (s : Sys) :
    (stopPolling s).toasts = s.toasts := by
  unfold stopPolling
  cases s.pollingInterval <;> rfl

@[simp] theorem stopPolling_pollingInterval (s : Sys) :
    (stopPolling s).pollingInterval = none := by
  unfold stopPolling
  cases hp : s.pollingInterval with
  | none => simp [hp]
  | some id => rfl

theorem stopPolling_activeTimers_of_inv (s : Sys)
    (h : s.activeTimers = s.pollingInterval.toList) :
    (stopPolling s).activeTimers = [] := by
  unfold stopPolling
  cases hp : s.pollingInterval with
  | none => simpa [hp] using h
  | some id =>
      rw [hp] at h
      simp [clearIntervalS, h, List.filter]

@[simp] theorem pollFinally_connected (s : Sys) :
    (pollFinally s).robotState.connected = s.robotState.connected := rfl

@[simp] theorem pollFinally_errorMessage (s : Sys) :
    (pollFinally s).robotState.errorMessage = s.robotState.errorMessage := rfl

@[simp] theorem pollFinally_data (s : Sys) :
    (pollFinally s).robotState.data = s.robotState.data := rfl

@[simp] theorem pollFinally_rsIsLoading (s : Sys) :
    (pollFinally s).robotState.isLoading = false := rfl

@[simp] theorem pollFinally_isLoading (s : Sys) :
    (pollFinally s).isLoading = false := rfl

@[simp] theorem pollFinally_logMessages (s : Sys) :
    (pollFinally s).logMessages = s.logMessages := rfl

@[simp] theorem pollFinally_pollingInterval (s : Sys) :
    (pollFinally s).pollingInterval = s.pollingInterval := rfl

@[simp] theorem pollFinally_activeTimers (s : Sys) :
    (pollFinally s).activeTimers = s.activeTimers := rfl

@[simp] theorem pollFinally_nextTimerId (s : Sys) :
    (pollFinally s).nextTimerId = s.nextTimerId := rfl

@[simp] theorem pollFinally_toasts (s : Sys) :
    (pollFinally s).toasts = s.toasts := rfl

@[simp] theorem pollTickBegin_robotState (s : Sys) :
    (pollTickBegin s).robotState = s.robotState := by
  unfold pollTickBegin
  split <;> rfl

@[simp] theorem pollTickBegin_logMessages (s : Sys) :
    (pollTickBegin s).logMessages = s.logMessages := by
  unfold pollTickBegin
  split <;> rfl

@[simp] theorem pollTickBegin_pollingInterval (s : Sys) :
    (pollTickBegin s).pollingInterval = s.pollingInterval := by
  unfold pollTickBegin
  split <;> rfl

@[simp] theorem pollTickBegin_activeTimers (s : Sys) :
    (pollTickBegin s).activeTimers = s.activeTimers := by
  unfold pollTickBegin
  split <;> rfl

@[simp] theorem pollTickBegin_nextTimerId (s : Sys) :
    (pollTickBegin s).nextTimerId = s.nextTimerId := by
  unfold pollTickBegin
  split <;> rfl

@[simp] theorem pollTickBegin_toasts (s : Sys) :
    (pollTickBegin s).toasts = s.toasts := by
  unfold pollTickBegin
  split <;> rfl

theorem pollTickBegin_of_not_loading (s : Sys)
    (h : s.robotState.isLoading = false) : pollTickBegin s = s := by
  unfold pollTickBegin
  simp [h]

@[simp] theorem pollCatch_connected (m t : String) (s : Sys) :
    (pollCatch m t s).robotState.connected = false := by
  simp [pollCatch]

@[simp] theorem pollCatch_errorMessage (m t : String) (s : Sys) :
    (pollCatch m t s).robotState.errorMessage =
      some (if m = "" then "无法连接到后端服务。" else m) := by
  simp [pollCatch]

@[simp] theorem pollCatch_data (m t : String) (s : Sys) :
    (pollCatch m t s).robotState.data = failureData := by
  simp [pollCatch]

@[simp] theorem pollCatch_logMessages (m t : String) (s : Sys) :
    (pollCatch m t s).logMessages =
      mkLogEntry t ("状态轮询请求失败: " ++ m) :: s.logMessages := by
  simp [pollCatch]

@[simp] theorem pollCatch_pollingInterval (m t : String) (s : Sys) :
    (pollCatch m t s).pollingInterval = none := by
  simp [pollCatch]

@[simp] theorem pollCatch_isLoading (m t : String) (s : Sys) :
    (pollCatch m t s).isLoading = s.isLoading := by
  simp [pollCatch]

@[simp] theorem pollCatch_toasts (m t : String) (s : Sys) :
    (pollCatch m t s).toasts = s.toasts := by
  simp [pollCatch]

@[simp] theorem pollCatch_nextTimerId (m t : String) (s : Sys) :
    (pollCatch m t s).nextTimerId = s.nextTimerId := by
  simp [pollCatch]

theorem pollCatch_activeTimers_of_inv (m t : String) (s : Sys)
    (h : s.activeTimers = s.pollingInterval.toList) :
    (pollCatch m t s).activeTimers = [] := by
  unfold pollCatch
  exact stopPolling_activeTimers_of_inv _ (by simpa using h)

@[simp] theorem dispatchCatch_connected (m t : String) (s : Sys) :
    (dispatchCatch m t s).robotState.connected = false := by
  simp [dispatchCatch]

@[simp] theorem dispatchCatch_errorMessage (m t : String) (s : Sys) :
    (dispatchCatch m t s).robotState.errorMessage =
      some (if m = "" then "网络或服务器连接失败" else m) := by
  simp [dispatchCatch]

@[simp] theorem dispatchCatch_data (m t : String) (s : Sys) :
    (dispatchCatch m t s).robotState.data = failureData := by
  simp [dispatchCatch]

@[simp] theorem dispatchCatch_rsIsLoading (m t : String) (s : Sys) :
    (dispatchCatch m t s).robotState.isLoading = s.robotState.isLoading := by
  simp [dispatchCatch]

@[simp] theorem dispatchCatch_logMessages (m t : String) (s : Sys) :
    (dispatchCatch m t s).logMessages =
      mkLogEntry t ("错误: " ++ (if m = "" then "网络或服务器连接失败" else m)) ::
        s.logMessages := by
  simp [dispatchCatch]

@[simp] theorem dispatchCatch_toasts (m t : String) (s : Sys) :
    (dispatchCatch m t s).toasts =
      { title := "请求失败",
        description := some (if m = "" then "网络或服务器连接失败" else m) } ::
        s.toasts := by
  simp [dispatchCatch]

@[simp] theorem dispatchCatch_pollingInterval (m t : String) (s : Sys) :
    (dispatchCatch m t s).pollingInterval = s.pollingInterval := by
  simp [dispatchCatch]

@[simp] theorem dispatchCatch_activeTimers (m t : String) (s : Sys) :
    (dispatchCatch m t s).activeTimers = s.activeTimers := by
  simp [dispatchCatch]

@[simp] theorem dispatchCatch_nextTimerId (m t : String) (s : Sys) :
    (dispatchCatch m t s).nextTimerId = s.nextTimerId := by
  simp [dispatchCatch]

@[simp] theorem dispatchCatch_isLoading (m t : String) (s : Sys) :
    (dispatchCatch m t s).isLoading = s.isLoading := by
  simp [dispatchCatch]

@[simp] theorem startPolling_robotState (i : Nat) (t : String) (s : Sys) :
    (startPolling i t s).robotState = s.robotState := by
  simp [startPolling, setIntervalS]

@[simp] theorem startPolling_logMessages (i : Nat) (t : String) (s : Sys) :
    (startPolling i t s).logMessages =
      mkLogEntry t (startLogMsg i) :: s.logMessages := by
  simp [startPolling, setIntervalS]

@[simp] theorem startPolling_isLoading (i : Nat) (t : String) (s : Sys) :
    (startPolling i t s).isLoading = s.isLoading := by
  simp [startPolling, setIntervalS]

@[simp] theorem startPolling_toasts (i : Nat) (t : String) (s : Sys) :
    (startPolling i t s).toasts = s.toasts := by
  simp [startPolling, setIntervalS]

@[simp] theorem startPolling_pollingInterval (i : Nat) (t : String) (s : Sys) :
    (startPolling i t s).pollingInterval = some s.nextTimerId := by
  simp [startPolling, setIntervalS]

@[simp] theorem startPolling_nextTimerId (i : Nat) (t : String) (s : Sys) :
    (startPolling i t s).nextTimerId = s.nextTimerId + 1 := by
  simp [startPolling, setIntervalS]

theorem startPolling_activeTimers (i : Nat) (t : String) (s : Sys) :
    (startPolling i t s).activeTimers =
      (stopPolling s).activeTimers ++ [s.nextTimerId] := by
  simp [startPolling, setIntervalS]

theorem logResults_cons (t : String) (r : DetailedResult)
    (rs : List DetailedResult) (s : Sys) :
    logResults t (r :: rs) s = logResults t rs (addLog t (resultLogMsg r) s) := rfl

@[simp] theorem logResults_robotState (t : String) (rs : List DetailedResult) (s : Sys) :
    (logResults t rs s).robotState = s.robotState := by
  induction rs generalizing s with
  | nil => rfl
  | cons r rs ih => rw [logResults_cons, ih, addLog_robotState]

@[simp] theorem logResults_isLoading (t : String) (rs : List DetailedResult) (s : Sys) :
    (logResults t rs s).isLoading = s.isLoading := by
  induction rs generalizing s with
  | nil => rfl
  | cons r rs ih => rw [logResults_cons, ih, addLog_isLoading]

@[simp] theorem logResults_pollingInterval (t : String) (rs : List DetailedResult) (s : Sys) :
    (logResults t rs s).pollingInterval = s.pollingInterval := by
  induction rs generalizing s with
  | nil => rfl
  | cons r rs ih => rw [logResults_cons, ih, addLog_pollingInterval]

@[simp] theorem logResults_activeTimers (t : String) (rs : List DetailedResult) (s : Sys) :
    (logResults t rs s).activeTimers = s.activeTimers := by
  induction rs generalizing s with
  | nil => rfl
  | cons r rs ih => rw [logResults_cons, ih, addLog_activeTimers]

@[simp] theorem logResults_nextTimerId (t : String) (rs : List DetailedResult) (s : Sys) :
    (logResults t rs s).nextTimerId = s.nextTimerId := by
  induction rs generalizing s with
  | nil => rfl
  | cons r rs ih => rw [logResults_cons, ih, addLog_nextTimerId]

@[simp] theorem logResults_toasts (t : String) (rs : List DetailedResult) (s : Sys) :
    (logResults t rs s).toasts = s.toasts := by
  induction rs generalizing s with
  | nil => rfl
  | cons r rs ih => rw [logResults_cons, ih, addLog_toasts]

@[simp] theorem logResults_logMessages (t : String) (rs : List DetailedResult) (s : Sys) :
    (logResults t rs s).logMessages =
      (rs.map (resultLogEntry t)).reverse ++ s.logMessages := by
  induction rs generalizing s with
  | nil => simp [logResults]
  | cons r rs ih =>
      simp [logResults, List.foldl_cons] at ih ⊢
      rw [ih]
      simp [resultLogEntry]

@[simp] theorem setRobotConnected_rsIsLoading (d : RobotStatusData) (s : Sys) :
    (setRobotConnected d s).robotState.isLoading = s.robotState.isLoading := rfl

theorem stopPolling_of_none (s : Sys) (h : s.pollingInterval = none) :
    stopPolling s = s := by
  unfold stopPolling
  rw [h]

/-- Claim C9: `stopPolling` on an already-stopped session is a no-op — the
state (including the log) is unchanged, and stop-after-stop equals a
single stop. -/
theorem stopPolling_noop_when_stopped :
    (∀ s : Sys, s.pollingInterval = none → stopPolling s = s) ∧
      ∀ s : Sys, stopPolling (stopPolling s) = stopPolling s := by
  refine ⟨stopPolling_of_none, fun s => ?_⟩
  exact stopPolling_of_none _ (stopPolling_pollingInterval s)

theorem stopPolling_noop_when_stopped_witness :
    stopPolling initSys = initSys ∧
      stopPolling (stopPolling sysWithTimer) = stopPolling sysWithTimer :=
  ⟨stopPolling_noop_when_stopped.1 initSys (by decide),
   stopPolling_noop_when_stopped.2 sysWithTimer⟩

/-- Claim C7: a blank (empty or whitespace-only) command is rejected with
only a transient validation toast: every other component of the state is
untouched, and the result does not depend on the network outcome or the
clock, so no network call is observable. -/
theorem dispatch_rejects_blank_input
    (cmd : String) (o1 o2 : CmdOutcome) (t1 t2 : String) (s : Sys)
    (hc : jsTrim cmd = "") :
    handleSendCommand cmd o1 t1 s =
      pushToast { title := "错误", description := some "指令不能为空！" } s ∧
    handleSendCommand cmd o1 t1 s = handleSendCommand cmd o2 t2 s := by
  unfold handleSendCommand
  rw [if_pos hc, if_pos hc]
  exact ⟨rfl, rfl⟩

theorem dispatch_rejects_blank_input_witness :
    handleSendCommand " \n  " (.netErr "boom") "10:00:00" initSys =
      pushToast { title := "错误", description := some "指令不能为空！" } initSys ∧
    handleSendCommand " \n  " (.netErr "boom") "10:00:00" initSys =
      handleSendCommand " \n  " (.ok { status := "success" }) "11:00:00" initSys :=
  dispatch_rejects_blank_input " \n  " (.netErr "boom") (.ok { status := "success" })
    "10:00:00" "11:00:00" initSys (by decide)

/-- Claim C3: under the timer-runtime invariant, `startPolling` tears down
any existing session, logs one entry carrying the chosen interval, and
leaves exactly one live timer — never two — and the invariant is
preserved. -/
theorem startPolling_single_session (i : Nat) (t : String) (s : Sys)
    (h : SessInv s) :
    (startPolling i t s).activeTimers = [s.nextTimerId] ∧
    (startPolling i t s).activeTimers.length = 1 ∧
    (startPolling i t s).pollingInterval = some s.nextTimerId ∧
    (startPolling i t s).logMessages =
      mkLogEntry t (startLogMsg i) :: s.logMessages ∧
    (∀ id, s.pollingInterval = some id →
      id ∉ (startPolling i t s).activeTimers) ∧
    SessInv (startPolling i t s) := by
  obtain ⟨h1, h2⟩ := h
  have hat : (startPolling i t s).activeTimers = [s.nextTimerId] := by
    rw [startPolling_activeTimers, stopPolling_activeTimers_of_inv s h1]
    rfl
  refine ⟨hat, by rw [hat]; rfl, startPolling_pollingInterval i t s,
    startPolling_logMessages i t s, ?_, ?_, ?_⟩
  · intro id hid
    have hlt : id < s.nextTimerId := h2 id (by rw [h1, hid]; simp)
    rw [hat]
    simp
    omega
  · rw [hat, startPolling_pollingInterval]
    rfl
  · intro id hid
    rw [hat] at hid
    simp at hid
    subst hid
    rw [startPolling_nextTimerId]
    omega

theorem startPolling_single_session_witness :
    (startPolling 1000 "t" sysWithTimer).activeTimers = [sysWithTimer.nextTimerId] ∧
    (startPolling 1000 "t" sysWithTimer).activeTimers.length = 1 ∧
    (startPolling 1000 "t" sysWithTimer).pollingInterval = some sysWithTimer.nextTimerId ∧
    (startPolling 1000 "t" sysWithTimer).logMessages =
      mkLogEntry "t" (startLogMsg 1000) :: sysWithTimer.logMessages ∧
    (∀ id, sysWithTimer.pollingInterval = some id →
      id ∉ (startPolling 1000 "t" sysWithTimer).activeTimers) ∧
    SessInv (startPolling 1000 "t" sysWithTimer) :=
  startPolling_single_session 1000 "t" sysWithTimer ⟨by decide, by decide⟩

/-- Claim C2: any poll tick that is not a success — network error, non-2xx
HTTP result, body status other than `"success"`, or a success body missing
its snapshot — leaves `connected=false`, the failure message in
`errorMessage`, the failure placeholder in `data`, appends exactly one
failure log entry, and stops the session: no timer remains live. -/
theorem pollFailure_terminates_session (o : PollOutcome) (t : String) (s : Sys)
    (hf : isPollFailure o = true)
    (hinv : s.activeTimers = s.pollingInterval.toList) :
    (pollRobotStatus o t s).robotState.connected = false ∧
    (pollRobotStatus o t s).robotState.errorMessage = some (pollFailMsg o) ∧
    (pollRobotStatus o t s).robotState.data = failureData ∧
    (pollRobotStatus o t s).logMessages =
      mkLogEntry t ("状态轮询请求失败: " ++ pollFailRaw o) :: s.logMessages ∧
    (pollRobotStatus o t s).pollingInterval = none ∧
    (pollRobotStatus o t s).activeTimers = [] := by
  have hA : (pollTickBegin s).activeTimers = (pollTickBegin s).pollingInterval.toList := by
    rw [pollTickBegin_activeTimers, pollTickBegin_pollingInterval]
    exact hinv
  unfold pollRobotStatus pollTickResolve
  cases o with
  | netErr m =>
      refine ⟨by simp, by simp [pollFailMsg, pollFailRaw], by simp,
        by simp [pollFailRaw], by simp, ?_⟩
      simp [pollCatch_activeTimers_of_inv _ _ _ hA]
  | httpErr c b =>
      refine ⟨by simp, by simp [pollFailMsg, pollFailRaw], by simp,
        by simp [pollFailRaw], by simp, ?_⟩
      simp [pollCatch_activeTimers_of_inv _ _ _ hA]
  | ok b =>
      by_cases hs : b.status = "success"
      · cases hrs : b.robot_status with
        | some rs => simp [isPollFailure, hs, hrs] at hf
        | none =>
            refine ⟨by simp [hs, hrs], by simp [hs, hrs, pollFailMsg, pollFailRaw],
              by simp [hs, hrs], by simp [hs, hrs, pollFailRaw],
              by simp [hs, hrs], ?_⟩
            simp [hs, hrs, pollCatch_activeTimers_of_inv _ _ _ hA]
      · refine ⟨by simp [hs], by simp [hs, pollFailMsg, pollFailRaw],
          by simp [hs], by simp [hs, pollFailRaw],
          by simp [hs], ?_⟩
        simp [hs, pollCatch_activeTimers_of_inv _ _ _ hA]

theorem pollFailure_terminates_session_witness :
    (pollRobotStatus (.httpErr 500 { status := "error" }) "t" sysWithTimer).robotState.connected = false ∧
    (pollRobotStatus (.httpErr 500 { status := "error" }) "t" sysWithTimer).robotState.errorMessage =
      some (pollFailMsg (.httpErr 500 { status := "error" })) ∧
    (pollRobotStatus (.httpErr 500 { status := "error" }) "t" sysWithTimer).robotState.data = failureData ∧
    (pollRobotStatus (.httpErr 500 { status := "error" }) "t" sysWithTimer).logMessages =
      mkLogEntry "t" ("状态轮询请求失败: " ++ pollFailRaw (.httpErr 500 { status := "error" })) ::
        sysWithTimer.logMessages ∧
    (pollRobotStatus (.httpErr 500 { status := "error" }) "t" sysWithTimer).pollingInterval = none ∧
    (pollRobotStatus (.httpErr 500 { status := "error" }) "t" sysWithTimer).activeTimers = [] :=
  pollFailure_terminates_session (.httpErr 500 { status := "error" }) "t" sysWithTimer
    (by decide) (by decide)

/-- Claim C1 (amended): a successful poll tick whose snapshot has
`run_status` equal to the backend literal `"停止"` (stopped) and
`alarm_code` 0 stops the session after that tick — no live timer remains,
so no further status query can fire — appends one completion log entry,
and leaves that snapshot as `data` with `connected=true` and no error. -/
theorem pollStopCondition_halts (body : StatusBody) (rs : RobotStatusData)
    (t : String) (s : Sys)
    (hst : body.status = "success") (hrs : body.robot_status = some rs)
    (hrun : rs.run_status = "停止") (hcode : rs.alarm_code = some 0)
    (hinv : s.activeTimers = s.pollingInterval.toList) :
    (pollRobotStatus (.ok body) t s).pollingInterval = none ∧
    (pollRobotStatus (.ok body) t s).activeTimers = [] ∧
    ¬ pollEnabled (pollRobotStatus (.ok body) t s) ∧
    (pollRobotStatus (.ok body) t s).logMessages =
      mkLogEntry t "机器人运动完成，状态轮询已自动停止。" :: s.logMessages ∧
    (pollRobotStatus (.ok body) t s).robotState.data = rs ∧
    (pollRobotStatus (.ok body) t s).robotState.connected = true ∧
    (pollRobotStatus (.ok body) t s).robotState.errorMessage = none := by
  have hstop : (stopPolling (setRobotConnected rs (pollTickBegin s))).activeTimers = [] := by
    apply stopPolling_activeTimers_of_inv
    rw [setRobotConnected_activeTimers, setRobotConnected_pollingInterval,
      pollTickBegin_activeTimers, pollTickBegin_pollingInterval]
    exact hinv
  unfold pollRobotStatus pollTickResolve
  have hcond : rs.run_status = "停止" ∧ rs.alarm_code = some 0 := ⟨hrun, hcode⟩
  refine ⟨by simp [hst, hrs, hcond], ?_, ?_, by simp [hst, hrs, hcond],
    by simp [hst, hrs, hcond], by simp [hst, hrs, hcond],
    by simp [hst, hrs, hcond]⟩
  · simp [hst, hrs, hcond, hstop]
  · simp [pollEnabled, hst, hrs, hcond, hstop]

theorem pollStopCondition_halts_witness :
    (pollRobotStatus (.ok { status := "success", robot_status := some snapStopped })
        "t" sysWithTimer).pollingInterval = none ∧
    (pollRobotStatus (.ok { status := "success", robot_status := some snapStopped })
        "t" sysWithTimer).activeTimers = [] ∧
    ¬ pollEnabled (pollRobotStatus (.ok { status := "success", robot_status := some snapStopped })
        "t" sysWithTimer) ∧
    (pollRobotStatus (.ok { status := "success", robot_status := some snapStopped })
        "t" sysWithTimer).logMessages =
      mkLogEntry "t" "机器人运动完成，状态轮询已自动停止。" :: sysWithTimer.logMessages ∧
    (pollRobotStatus (.ok { status := "success", robot_status := some snapStopped })
        "t" sysWithTimer).robotState.data = snapStopped ∧
    (pollRobotStatus (.ok { status := "success", robot_status := some snapStopped })
        "t" sysWithTimer).robotState.connected = true ∧
    (pollRobotStatus (.ok { status := "success", robot_status := some snapStopped })
        "t" sysWithTimer).robotState.errorMessage = none :=
  pollStopCondition_halts { status := "success", robot_status := some snapStopped }
    snapStopped "t" sysWithTimer rfl rfl rfl rfl (by decide)

/-- Claim C1 as stated fails on the code: a successful tick whose snapshot
carries the English literal `"stopped"` with `alarm_code` 0 does not stop
the session (the timer stays live) and appends no completion log entry,
because the code compares `run_status` against the backend literal
`"停止"`. -/
theorem pollStopCondition_english_counterexample :
    (pollRobotStatus (.ok { status := "success", robot_status := some snapStoppedEn })
        "t" sysWithTimer).activeTimers = [1] ∧
    (pollRobotStatus (.ok { status := "success", robot_status := some snapStoppedEn })
        "t" sysWithTimer).pollingInterval = some 1 ∧
    pollEnabled (pollRobotStatus (.ok { status := "success", robot_status := some snapStoppedEn })
        "t" sysWithTimer) ∧
    (pollRobotStatus (.ok { status := "success", robot_status := some snapStoppedEn })
        "t" sysWithTimer).logMessages = sysWithTimer.logMessages ∧
    snapStoppedEn.run_status = "stopped" ∧ snapStoppedEn.alarm_code = some 0 := by
  refine ⟨by decide, by decide, ?_, by decide, by decide, by decide⟩
  intro h
  exact absurd h (by decide)

theorem handleSendCommand_rsIsLoading (cmd : String) (o : CmdOutcome) (t : String) (s : Sys) :
    (handleSendCommand cmd o t s).robotState.isLoading = s.robotState.isLoading := by
  unfold handleSendCommand
  split
  · rfl
  · cases o with
    | netErr m => simp
    | httpErr b => simp
    | ok body =>
        dsimp only
        cases hd : body.detailed_results <;> cases hr : body.robot_status <;>
          simp only [hd, hr] <;> split <;> (try split) <;> simp

/-- Claim C8: `isLoading` can be true only until the first tick of a
session resolves. Every tick resolution forces both loading flags to
false; a tick that begins with `robotState.isLoading` already false changes
nothing before the fetch, and a full tick from a quiescent state leaves the
`isLoading` ref unchanged. Dispatch, start and stop never raise
`robotState.isLoading`, so within a session the quiescence persists. -/
theorem loading_only_first_tick :
    (∀ (o : PollOutcome) (t : String) (s : Sys),
        (pollTickResolve o t s).robotState.isLoading = false ∧
        (pollTickResolve o t s).isLoading = false) ∧
    (∀ s : Sys, s.robotState.isLoading = false → pollTickBegin s = s) ∧
    (∀ (o : PollOutcome) (t : String) (s : Sys),
        s.robotState.isLoading = false → s.isLoading = false →
        (pollRobotStatus o t s).isLoading = s.isLoading) ∧
    (∀ (cmd : String) (o : CmdOutcome) (t : String) (s : Sys),
        s.robotState.isLoading = false →
        (handleSendCommand cmd o t s).robotState.isLoading = false) ∧
    (∀ (i : Nat) (t : String) (s : Sys),
        s.robotState.isLoading = false →
        (startPolling i t s).robotState.isLoading = false) ∧
    (∀ s : Sys, s.robotState.isLoading = false →
        (stopPolling s).robotState.isLoading = false) := by
  refine ⟨fun o t s => ⟨?_, ?_⟩, pollTickBegin_of_not_loading, fun o t s h1 h2 => ?_,
    fun cmd o t s h => ?_, fun i t s h => ?_, fun s h => ?_⟩
  · unfold pollTickResolve
    exact pollFinally_rsIsLoading _
  · unfold pollTickResolve
    exact pollFinally_isLoading _
  · unfold pollRobotStatus pollTickResolve
    rw [pollFinally_isLoading, h2]
  · rw [handleSendCommand_rsIsLoading]
    exact h
  · rw [startPolling_robotState]
    exact h
  · rw [stopPolling_robotState]
    exact h

theorem loading_only_first_tick_witness :
    pollTickBegin sysIdle = sysIdle ∧
    (pollRobotStatus (.netErr "x") "t" sysIdle).isLoading = sysIdle.isLoading ∧
    (handleSendCommand "MOVE" (.ok { status := "success" }) "t" sysIdle).robotState.isLoading = false ∧
    (startPolling 1000 "t" sysIdle).robotState.isLoading = false ∧
    (stopPolling sysIdle).robotState.isLoading = false :=
  ⟨loading_only_first_tick.2.1 sysIdle (by decide),
   loading_only_first_tick.2.2.1 (.netErr "x") "t" sysIdle (by decide) (by decide),
   loading_only_first_tick.2.2.2.1 "MOVE" (.ok { status := "success" }) "t" sysIdle (by decide),
   loading_only_first_tick.2.2.2.2.1 1000 "t" sysIdle (by decide),
   loading_only_first_tick.2.2.2.2.2 sysIdle (by decide)⟩

theorem connInv_handleSendCommand (cmd : String) (o : CmdOutcome) (t : String)
    (s : Sys) (hc : ConnInv s) : ConnInv (handleSendCommand cmd o t s) := by
  unfold ConnInv at hc ⊢
  unfold handleSendCommand
  split
  · simpa using hc
  · cases o with
    | netErr m => simp
    | httpErr b => simp
    | ok body =>
        dsimp only
        cases hd : body.detailed_results <;> cases hr : body.robot_status <;>
          simp only [hd, hr] <;> split <;> (try split) <;> simp <;> simpa using hc

theorem connInv_pollTickResolve (o : PollOutcome) (t : String) (s : Sys) :
    ConnInv (pollTickResolve o t s) := by
  unfold ConnInv
  unfold pollTickResolve
  cases o with
  | netErr m => simp
  | httpErr c b => simp
  | ok b =>
      by_cases hs : b.status = "success"
      · cases hr : b.robot_status with
        | some rs =>
            simp [hs, hr]
            split <;> simp
        | none => simp [hs, hr]
      · simp [hs]

/-- Claim C4: the ConnectionState invariant `connected=true ⇒
errorMessage=null` holds in the initial state and is preserved by every
atomic operation of the controller (mount, dispatch of either outcome,
both halves of a poll tick, start, stop). -/
theorem connectedImpliesNoError_invariant :
    ConnInv initSys ∧
      ∀ s sNext : Sys, Step s sNext → ConnInv s → ConnInv sNext := by
  constructor
  · intro hcon
    exact absurd hcon (by decide)
  · intro s sNext st hc
    cases st with
    | mounted time =>
        unfold ConnInv at hc ⊢
        simpa [onMountedStep] using hc
    | dispatch cmd o time => exact connInv_handleSendCommand cmd o time s hc
    | tickBegin =>
        unfold ConnInv at hc ⊢
        simpa using hc
    | tickResolve o time => exact connInv_pollTickResolve o time s
    | start i time =>
        unfold ConnInv at hc ⊢
        simpa using hc
    | stop =>
        unfold ConnInv at hc ⊢
        simpa using hc

theorem connectedImpliesNoError_invariant_witness :
    ConnInv (handleSendCommand "MOVE J1 30"
      (.ok { status := "error", robot_status := some snapRunning }) "t" initSys) :=
  connectedImpliesNoError_invariant.2 initSys
    (handleSendCommand "MOVE J1 30"
      (.ok { status := "error", robot_status := some snapRunning }) "t" initSys)
    (Step.dispatch initSys "MOVE J1 30"
      (.ok { status := "error", robot_status := some snapRunning }) "t")
    (fun hcon => absurd hcon (by decide))

/-- Claim C5 as stated fails on the code: the failure placeholder does not
mark every field as failed — `gv0_value` is set to the literal `"N/A"`,
not to the failed marker (`"失败"` / `"failed"`), as this concrete failed
dispatch shows. -/
theorem dispatchFailure_gv0_counterexample :
    (handleSendCommand "MOVE J1 30" (.netErr "boom") "t" initSys).robotState.data.gv0_value
        = GVValue.str "N/A" ∧
    GVValue.str "N/A" ≠ GVValue.str "失败" ∧
    GVValue.str "N/A" ≠ GVValue.str "failed" := by
  refine ⟨by decide, by decide, by decide⟩

/-- Claim C5 (amended): a dispatch that ends in transport failure, a
non-2xx HTTP result or a malformed payload sets `connected=false`, stores
the failure message, replaces `data` with the failure placeholder (status
fields marked `"失败"`, `gv0_value` set to `"N/A"`), appends one failure
log entry on top of the batch entry, pushes one failure toast, leaves no
polling session live, and clears `isLoading`. -/
theorem dispatchFailure_updates_state (cmd : String) (o : CmdOutcome)
    (t : String) (s : Sys)
    (hc : jsTrim cmd ≠ "") (hf : isDispatchFailure o = true)
    (hinv : s.activeTimers = s.pollingInterval.toList) :
    (handleSendCommand cmd o t s).robotState.connected = false ∧
    (handleSendCommand cmd o t s).robotState.errorMessage = some (dispatchFailMsg o) ∧
    (handleSendCommand cmd o t s).robotState.data = failureData ∧
    (handleSendCommand cmd o t s).logMessages =
      mkLogEntry t ("错误: " ++ dispatchFailMsg o) ::
        mkLogEntry t (batchLogMsg cmd) :: s.logMessages ∧
    (handleSendCommand cmd o t s).toasts =
      { title := "请求失败", description := some (dispatchFailMsg o) } :: s.toasts ∧
    (handleSendCommand cmd o t s).pollingInterval = none ∧
    (handleSendCommand cmd o t s).activeTimers = [] ∧
    (handleSendCommand cmd o t s).isLoading = false := by
  have hstop : (stopPolling (addLog t (batchLogMsg cmd) { s with isLoading := true })).activeTimers = [] := by
    apply stopPolling_activeTimers_of_inv
    simpa using hinv
  unfold handleSendCommand
  rw [if_neg hc]
  cases o with
  | netErr m =>
      refine ⟨by simp, by simp [dispatchFailMsg, dispatchFailRaw], by simp,
        by simp [dispatchFailMsg, dispatchFailRaw],
        by simp [dispatchFailMsg, dispatchFailRaw], by simp, by simp [hstop], by simp⟩
  | httpErr b =>
      refine ⟨by simp, by simp [dispatchFailMsg, dispatchFailRaw], by simp,
        by simp [dispatchFailMsg, dispatchFailRaw],
        by simp [dispatchFailMsg, dispatchFailRaw], by simp, by simp [hstop], by simp⟩
  | ok body => simp [isDispatchFailure] at hf

theorem dispatchFailure_updates_state_witness :
    (handleSendCommand "MOVE J1 30" (.netErr "Failed to fetch") "t" sysWithTimer).robotState.connected = false ∧
    (handleSendCommand "MOVE J1 30" (.netErr "Failed to fetch") "t" sysWithTimer).robotState.errorMessage =
      some (dispatchFailMsg (.netErr "Failed to fetch")) ∧
    (handleSendCommand "MOVE J1 30" (.netErr "Failed to fetch") "t" sysWithTimer).robotState.data = failureData ∧
    (handleSendCommand "MOVE J1 30" (.netErr "Failed to fetch") "t" sysWithTimer).logMessages =
      mkLogEntry "t" ("错误: " ++ dispatchFailMsg (.netErr "Failed to fetch")) ::
        mkLogEntry "t" (batchLogMsg "MOVE J1 30") :: sysWithTimer.logMessages ∧
    (handleSendCommand "MOVE J1 30" (.netErr "Failed to fetch") "t" sysWithTimer).toasts =
      { title := "请求失败", description := some (dispatchFailMsg (.netErr "Failed to fetch")) } ::
        sysWithTimer.toasts ∧
    (handleSendCommand "MOVE J1 30" (.netErr "Failed to fetch") "t" sysWithTimer).pollingInterval = none ∧
    (handleSendCommand "MOVE J1 30" (.netErr "Failed to fetch") "t" sysWithTimer).activeTimers = [] ∧
    (handleSendCommand "MOVE J1 30" (.netErr "Failed to fetch") "t" sysWithTimer).isLoading = false :=
  dispatchFailure_updates_state "MOVE J1 30" (.netErr "Failed to fetch") "t" sysWithTimer
    (by decide) (by decide) (by decide)

/-- Claim C6: a 2xx dispatch response carrying `detailed_results` with N
entries appends exactly those N log entries for the result list, in the
order returned, each formatted `> "<command>": <message> (<status>)` — the
full log evolution is: the optional polling-start entry, then the N result
entries (newest first), on top of the batch entry. -/
theorem dispatch_logs_detailed_results (cmd : String) (body : CmdBody)
    (t : String) (s : Sys) (hc : jsTrim cmd ≠ "") :
    (handleSendCommand cmd (.ok body) t s).logMessages =
      (if body.status = "success" ∧ body.motion_started = true
        then [mkLogEntry t (startLogMsg 1000)] else []) ++
      ((body.detailed_results.getD []).map (resultLogEntry t)).reverse ++
      mkLogEntry t (batchLogMsg cmd) :: s.logMessages := by
  unfold handleSendCommand
  rw [if_neg hc]
  dsimp only
  by_cases hmb : body.status = "success" ∧ body.motion_started = true
  · cases hd : body.detailed_results <;> cases hr : body.robot_status <;>
      simp [hd, hr, hmb]
  · by_cases hse : body.status = "error" <;>
      cases hd : body.detailed_results <;> cases hr : body.robot_status <;>
        simp [hd, hr, hmb, hse]

theorem dispatch_logs_detailed_results_witness :
    (handleSendCommand "MOVE J1 30\nMOVE J2 10"
      (.ok { status := "success", motion_started := true,
             robot_status := some snapRunning,
             detailed_results := some
               [{ command := "MOVE J1 30", status := "success", message := "ok" },
                { command := "MOVE J2 10", status := "success", message := "ok" }] })
      "t" initSys).logMessages =
      (if ("success" : String) = "success" ∧ true = true
        then [mkLogEntry "t" (startLogMsg 1000)] else []) ++
      (((some
          [{ command := "MOVE J1 30", status := "success", message := "ok" },
           { command := "MOVE J2 10", status := "success", message := "ok" }] :
            Option (List DetailedResult)).getD []).map (resultLogEntry "t")).reverse ++
      mkLogEntry "t" (batchLogMsg "MOVE J1 30\nMOVE J2 10") :: initSys.logMessages :=
  dispatch_logs_detailed_results "MOVE J1 30\nMOVE J2 10"
    { status := "success", motion_started := true,
      robot_status := some snapRunning,
      detailed_results := some
        [{ command := "MOVE J1 30", status := "success", message := "ok" },
         { command := "MOVE J2 10", status := "success", message := "ok" }] }
    "t" initSys (by decide)

/-- Claim C10: a 2xx dispatch response that carries a snapshot and overall
status `"error"` still records the snapshot as connected (`connected=true`,
`errorMessage=null`, `data` replaced wholesale) and then surfaces the
backend error as a toast, starting no polling; with no snapshot present, a
backend error leaves `connected` untouched — it never flips it to false. -/
theorem dispatch_backend_error_keeps_connected :
    (∀ (cmd : String) (body : CmdBody) (rs : RobotStatusData) (t : String) (s : Sys),
        jsTrim cmd ≠ "" → body.status = "error" → body.robot_status = some rs →
        (handleSendCommand cmd (.ok body) t s).robotState.connected = true ∧
        (handleSendCommand cmd (.ok body) t s).robotState.errorMessage = none ∧
        (handleSendCommand cmd (.ok body) t s).robotState.data = rs ∧
        (handleSendCommand cmd (.ok body) t s).toasts =
          { title := "指令错误", description := body.message } :: s.toasts ∧
        (handleSendCommand cmd (.ok body) t s).pollingInterval = none) ∧
    (∀ (cmd : String) (body : CmdBody) (t : String) (s : Sys),
        jsTrim cmd ≠ "" → body.status = "error" → body.robot_status = none →
        (handleSendCommand cmd (.ok body) t s).robotState.connected =
          s.robotState.connected) := by
  constructor
  · intro cmd body rs t s hc hs hrs
    have hmb : ¬(body.status = "success" ∧ body.motion_started = true) := by
      intro h
      rw [hs] at h
      exact absurd h.1 (by decide)
    unfold handleSendCommand
    rw [if_neg hc]
    dsimp only
    cases hd : body.detailed_results <;> simp [hd, hrs, hmb, hs]
  · intro cmd body t s hc hs hrs
    have hmb : ¬(body.status = "success" ∧ body.motion_started = true) := by
      intro h
      rw [hs] at h
      exact absurd h.1 (by decide)
    unfold handleSendCommand
    rw [if_neg hc]
    dsimp only
    cases hd : body.detailed_results <;> simp [hd, hrs, hmb, hs]

theorem dispatch_backend_error_keeps_connected_witness :
    (handleSendCommand "MOVE J1 30"
      (.ok { status := "error", message := some "syntax error",
             robot_status := some snapRunning }) "t" initSys).robotState.connected = true ∧
    (handleSendCommand "MOVE J1 30"
      (.ok { status := "error", message := some "syntax error",
             robot_status := some snapRunning }) "t" initSys).robotState.errorMessage = none ∧
    (handleSendCommand "MOVE J1 30"
      (.ok { status := "error", message := some "syntax error",
             robot_status := some snapRunning }) "t" initSys).robotState.data = snapRunning ∧
    (handleSendCommand "MOVE J1 30"
      (.ok { status := "error", message := some "syntax error",
             robot_status := some snapRunning }) "t" initSys).toasts =
      { title := "指令错误", description := some "syntax error" } :: initSys.toasts ∧
    (handleSendCommand "MOVE J1 30"
      (.ok { status := "error", message := some "syntax error",
             robot_status := some snapRunning }) "t" initSys).pollingInterval = none :=
  dispatch_backend_error_keeps_connected.1 "MOVE J1 30"
    { status := "error", message := some "syntax error",
      robot_status := some snapRunning } snapRunning "t" initSys
    (by decide) rfl rfl

end RobotCtrl
